import Mathlib

/-!
Shallow embedding of the tcpserver package (src/tcpserver.go).

The server state (listener handle, live-connection registry, shutdown
signal slot) is made explicit, and each operation of the source — Close,
Shutdown, the Serve accept loop, and the per-connection worker serve —
is translated to a Lean function that returns its result together with a
trace of observable effects (Action values, in program order).
Nondeterminism coming from the environment (accept results, TLS
handshake results, handler outcomes, timer versus ctx races) is resolved
by explicit oracle parameters: lists of events and a WorkerEnv record.
-/

namespace TcpServer

/-- Error values, abstracted as numeric codes; a Go error value is
either nil (modelled as none) or a concrete error (some code). -/
abbrev Err := Nat

/-- Identifier standing for one net.Conn handle. -/
abbrev Conn := Nat

/-- Which connection value an effect refers to: the raw accepted TCP
connection, or the TLS wrapper returned by tls.Server. -/
inductive ConnKind
  | raw
  | tls
deriving DecidableEq, Repr

/-- Destination of a diagnostic record: the user supplied ErrorLog, or
the default logger writing to ioutil.Discard. -/
inductive LogSink
  | userLog
  | discardLog
deriving DecidableEq, Repr

/-- Observable effects of the server code. A trace lists them in program
order. -/
inductive Action
  | closeListener
  | sendCloseCh
  | sendConnSignal (c : Conn)
  | closeConn (c : Conn) (k : ConnKind)
  | register (c : Conn)
  | unregister (c : Conn)
  | handshake (c : Conn)
  | invokeHandler (c : Conn) (k : ConnKind)
  | logRecovered (s : LogSink) (v : Nat)
  | spawnWorker (c : Conn)
  | sleepMs (n : Nat)
deriving DecidableEq, Repr

/-- The connContext struct of the source: the connection handle and its
capacity-one cancellation signal slot (true when the slot is filled). -/
structure ConnCtx where
  conn : Conn
  closeCh : Bool
deriving DecidableEq, Repr

/-- Mutable fields of TCPServer: the listener handle l (none models the
nil interface value before Serve assigns it), the conns registry, and
the capacity-one closeCh shutdown slot (true when filled). -/
structure ServerState where
  l : Option Nat
  conns : List ConnCtx
  closeCh : Bool
deriving DecidableEq, Repr

/-- How a modelled call ends: a Go runtime fault (nil dereference), no
return within the supplied schedule of events, or a normal return. -/
inductive Outcome (α : Type)
  | fault
  | diverge
  | ret (a : α)
deriving DecidableEq, Repr

/-- Non-blocking send on a capacity-one channel, the select with a
default branch of the source: an empty slot is filled, a signal to a
full slot is dropped; either way the slot is full afterwards. -/
def signalSend (filled : Bool) : Bool :=
  match filled with
  | false => true
  | true => true

/-- The zero value of TCPServer before any Serve call: nil listener, nil
registry map, nil channel. -/
def initialState : ServerState :=
  { l := none, conns := [], closeCh := false }

/-- The assignments at the top of Serve (lines 131 to 133 of the
source): store the listener handle, create a fresh empty conns map and a
fresh empty capacity-one closeCh slot, discarding any previous ones. -/
def serveInit (lid : Nat) (st : ServerState) : ServerState :=
  { st with l := some lid, conns := [], closeCh := false }

/-- Close (lines 94 to 112): close the listener, non-blocking send to
closeCh, then for every registry entry a non-blocking send to its
cancellation slot followed by closing its socket; return the listener
close error. Faults when the listener field is still nil. -/
def Close (closeErr : Option Err) (st : ServerState) :
    Outcome (Option Err × List Action × ServerState) :=
  match st.l with
  | none => Outcome.fault
  | some _ =>
    let err := closeErr
    let ch := signalSend st.closeCh
    let perConn := st.conns.flatMap (fun c =>
      [Action.sendConnSignal c.conn, Action.closeConn c.conn ConnKind.raw])
    Outcome.ret (err,
      Action.closeListener :: Action.sendCloseCh :: perConn,
      { st with closeCh := ch,
                conns := st.conns.map (fun c => { c with closeCh := true }) })

/-- One resolution of the select inside the Shutdown wait loop: either
the 5 ms timer fires, or ctx.Done fires; each carries the registry
snapshot the loop body then observes under the read lock. -/
inductive LoopEvent
  | timer (reg : List ConnCtx)
  | ctxDone (reg : List ConnCtx)
deriving DecidableEq, Repr

/-- True of an event that keeps the Shutdown wait loop spinning: a timer
tick observing a non-empty registry. -/
def stillWaiting : LoopEvent → Bool
  | LoopEvent.timer reg => !reg.isEmpty
  | LoopEvent.ctxDone _ => false

/-- The wait loop of Shutdown (lines 68 to 86): on a timer tick with an
empty registry return the saved listener close error; on a non-empty
tick keep looping; when ctx fires, close every connection still in the
registry and return the ctx error. Returns none when the supplied
schedule runs out with the loop still spinning. -/
def shutdownLoop (closeErr : Option Err) (ctxErr : Err) :
    List LoopEvent → Option (Option Err × List Action)
  | [] => none
  | LoopEvent.timer reg :: rest =>
    if reg.isEmpty then some (closeErr, [Action.sleepMs 5])
    else (shutdownLoop closeErr ctxErr rest).map
      (fun r => (r.1, Action.sleepMs 5 :: r.2))
  | LoopEvent.ctxDone reg :: _ =>
    some (some ctxErr,
      reg.map (fun c => Action.closeConn c.conn ConnKind.raw))

/-- Shutdown (lines 52 to 87): close the listener, non-blocking send to
closeCh, non-blocking send to every registered cancellation slot, then
run the wait loop. Faults when the listener field is still nil. -/
def Shutdown (closeErr : Option Err) (ctxErr : Err)
    (events : List LoopEvent) (st : ServerState) :
    Outcome (Option Err × List Action) :=
  match st.l with
  | none => Outcome.fault
  | some _ =>
    let headActs : List Action :=
      Action.closeListener :: Action.sendCloseCh ::
        st.conns.map (fun c => Action.sendConnSignal c.conn)
    match shutdownLoop closeErr ctxErr events with
    | none => Outcome.diverge
    | some r => Outcome.ret (r.1, headActs ++ r.2)

/-- One observed result of l.Accept in the Serve loop: a new connection,
or a failure carrying the error, whether it is a temporary net.Error,
and whether a shutdown signal is pending on closeCh at that moment. -/
inductive AcceptEvent
  | accepted (c : Conn)
  | failed (e : Err) (temporary : Bool) (closeSignal : Bool)
deriving DecidableEq, Repr

/-- True of an accept event that yields a connection. -/
def isAccepted : AcceptEvent → Bool
  | AcceptEvent.accepted _ => true
  | AcceptEvent.failed _ _ _ => false

/-- The accept loop of Serve (lines 137 to 154): on success spawn a
worker goroutine and continue; on failure return nil when a shutdown
signal is pending, sleep 5 ms and retry when the error is a temporary
net.Error, otherwise return the error. Every return path runs the
deferred listener close. Returns none when the supplied schedule runs
out with the loop still spinning. -/
def serveLoop : List AcceptEvent → Option (Option Err × List Action)
  | [] => none
  | AcceptEvent.accepted c :: rest =>
    (serveLoop rest).map (fun r => (r.1, Action.spawnWorker c :: r.2))
  | AcceptEvent.failed e temp sig :: rest =>
    if sig then some (none, [Action.closeListener])
    else if temp then
      (serveLoop rest).map (fun r => (r.1, Action.sleepMs 5 :: r.2))
    else some (some e, [Action.closeListener])

/-- Serve (lines 130 to 155), return value only: the state assignments
at entry are serveInit, after which the loop runs on the schedule of
accept events. -/
def Serve (events : List AcceptEvent) : Outcome (Option Err × List Action) :=
  match serveLoop events with
  | none => Outcome.diverge
  | some r => Outcome.ret r

/-- Environment of one worker: whether srv.Handler and srv.TLSConfig and
srv.ErrorLog are non-nil, the result of tlsConn.Handshake (none is
success), and the outcome of the handler call (none is a normal return,
some v is a panic with value v). -/
structure WorkerEnv where
  handlerSet : Bool
  tlsSet : Bool
  errorLogSet : Bool
  handshakeErr : Option Err
  handlerOutcome : Option Nat
deriving DecidableEq, Repr

/-- The diagnostic sink a worker uses (lines 168 to 171): srv.ErrorLog
when set, otherwise a fresh logger writing to ioutil.Discard. -/
def serveSink (env : WorkerEnv) : LogSink :=
  if env.errorLogSet then LogSink.userLog else LogSink.discardLog

/-- Body of the anonymous function wrapping the handler call (lines 172
to 192), with its deferred recover: optional TLS handshake, on
handshake failure handlerConn becomes nil and the handler is skipped,
otherwise the handler runs on the raw or TLS-wrapped connection; a
panic value is recovered and logged. Returns the trace together with
the panic value escaping the function, which recover makes none. -/
def innerBody (env : WorkerEnv) (conn : Conn) (sink : LogSink) :
    List Action × Option Nat :=
  let hsActs : List Action :=
    if env.tlsSet then [Action.handshake conn] else []
  let handlerConn : Option ConnKind :=
    if env.tlsSet then
      match env.handshakeErr with
      | some _ => none
      | none => some ConnKind.tls
    else some ConnKind.raw
  match handlerConn with
  | none => (hsActs, none)
  | some k =>
    match env.handlerOutcome with
    | none => (hsActs ++ [Action.invokeHandler conn k], none)
    | some v =>
      (hsActs ++ [Action.invokeHandler conn k, Action.logRecovered sink v],
        none)

/-- The worker serve (lines 157 to 200): register the connection with a
fresh cancellation slot; when a handler is set, run the wrapped handler
body; then close the raw connection and delete the registry entry. -/
def serve (env : WorkerEnv) (conn : Conn) : List Action :=
  Action.register conn ::
    ((if env.handlerSet then (innerBody env conn (serveSink env)).1 else [])
      ++ [Action.closeConn conn ConnKind.raw, Action.unregister conn])

/-- C10: Serve initializes the mutable server state: it stores the
listener handle and creates a fresh empty registry and a fresh empty
capacity-one shutdown slot on every call, discarding any previous ones;
consequently Close or Shutdown invoked on the zero-valued server, before
any Serve call, dereferences the nil listener and faults. -/
theorem Serve_state_init :
    (∀ (st : ServerState) (lid : Nat),
      serveInit lid st = { l := some lid, conns := [], closeCh := false }) ∧
    (∀ closeErr : Option Err, Close closeErr initialState = Outcome.fault) ∧
    (∀ (closeErr : Option Err) (ctxErr : Err) (events : List LoopEvent),
      Shutdown closeErr ctxErr events initialState = Outcome.fault) := by
  refine ⟨fun st lid => rfl, fun closeErr => rfl, fun closeErr ctxErr events => rfl⟩

/-- C7: in the accept loop, a temporary net.Error accept failure with no
shutdown signal pending is followed by a fixed 5 ms sleep and a retry,
and its error is never the value returned to the caller; a failure that
is neither temporary nor shutdown-intended terminates the loop, is
returned to the caller, and the deferred listener close runs. -/
theorem Serve_accept_error_policy :
    (∀ (e : Err) (rest : List AcceptEvent),
      Serve (AcceptEvent.failed e true false :: rest)
        = match serveLoop rest with
          | none => Outcome.diverge
          | some r => Outcome.ret (r.1, Action.sleepMs 5 :: r.2)) ∧
    (∀ (e : Err) (rest : List AcceptEvent),
      Serve (AcceptEvent.failed e false false :: rest)
        = Outcome.ret (some e, [Action.closeListener])) := by
  constructor
  · intro e rest
    cases h : serveLoop rest with
    | none => simp [Serve, serveLoop, h]
    | some r => simp [Serve, serveLoop, h]
  · intro e rest
    rfl

/-- C8: a worker on a server whose Handler field is nil registers the
connection, performs no TLS handshake even when TLSConfig is set,
invokes nothing, then closes and unregisters the connection. -/
theorem serve_nil_handler (env : WorkerEnv) (conn : Conn)
    (h : env.handlerSet = false) :
    serve env conn = [Action.register conn,
      Action.closeConn conn ConnKind.raw, Action.unregister conn] := by
  simp [serve, h]

/-- C8 witness: concrete run with Handler nil and TLSConfig set. -/
theorem serve_nil_handler_witness :
    (WorkerEnv.mk false true true none (some 1)).handlerSet = false ∧
    serve (WorkerEnv.mk false true true none (some 1)) 4
      = [Action.register 4, Action.closeConn 4 ConnKind.raw,
         Action.unregister 4] :=
  ⟨rfl, serve_nil_handler (WorkerEnv.mk false true true none (some 1)) 4 rfl⟩

/-- C6: with TLSConfig set, a failed server-side handshake makes the
worker skip the handler and surface no error to any caller or sink:
the trace is exactly register, handshake, close, unregister, with no
handler invocation and no diagnostic record. -/
theorem serve_tls_failure_silent (env : WorkerEnv) (conn : Conn) (e : Err)
    (hset : env.handlerSet = true) (htls : env.tlsSet = true)
    (herr : env.handshakeErr = some e) :
    serve env conn = [Action.register conn, Action.handshake conn,
      Action.closeConn conn ConnKind.raw, Action.unregister conn] ∧
    (∀ k, Action.invokeHandler conn k ∉ serve env conn) ∧
    (∀ s v, Action.logRecovered s v ∉ serve env conn) := by
  have htr : serve env conn = [Action.register conn, Action.handshake conn,
      Action.closeConn conn ConnKind.raw, Action.unregister conn] := by
    simp [serve, innerBody, hset, htls, herr]
  refine ⟨htr, ?_, ?_⟩
  · intro k
    rw [htr]
    simp
  · intro s v
    rw [htr]
    simp

/-- C6 witness: concrete worker with TLS configured and a failing
handshake. -/
theorem serve_tls_failure_silent_witness :
    ((WorkerEnv.mk true true false (some 5) none).handlerSet = true ∧
     (WorkerEnv.mk true true false (some 5) none).tlsSet = true ∧
     (WorkerEnv.mk true true false (some 5) none).handshakeErr = some 5) ∧
    serve (WorkerEnv.mk true true false (some 5) none) 2
      = [Action.register 2, Action.handshake 2,
         Action.closeConn 2 ConnKind.raw, Action.unregister 2] :=
  ⟨⟨rfl, rfl, rfl⟩,
    (serve_tls_failure_silent (WorkerEnv.mk true true false (some 5) none)
      2 5 rfl rfl rfl).1⟩

/-- C9: with TLSConfig set and a successful handshake, the handler
receives the TLS-wrapped connection while the cleanup of the worker
closes the raw underlying connection, and no close of the TLS wrapper
ever appears. -/
theorem serve_tls_conn_usage (env : WorkerEnv) (conn : Conn)
    (hset : env.handlerSet = true) (htls : env.tlsSet = true)
    (hok : env.handshakeErr = none) :
    Action.invokeHandler conn ConnKind.tls ∈ serve env conn ∧
    Action.closeConn conn ConnKind.raw ∈ serve env conn ∧
    Action.invokeHandler conn ConnKind.raw ∉ serve env conn ∧
    Action.closeConn conn ConnKind.tls ∉ serve env conn := by
  cases ho : env.handlerOutcome with
  | none => simp [serve, innerBody, hset, htls, hok, ho]
  | some v => simp [serve, innerBody, hset, htls, hok, ho]

/-- C9 witness: concrete worker with TLS configured and a successful
handshake. -/
theorem serve_tls_conn_usage_witness :
    ((WorkerEnv.mk true true true none none).handlerSet = true ∧
     (WorkerEnv.mk true true true none none).tlsSet = true ∧
     (WorkerEnv.mk true true true none none).handshakeErr = none) ∧
    Action.invokeHandler 6 ConnKind.tls
        ∈ serve (WorkerEnv.mk true true true none none) 6 ∧
    Action.closeConn 6 ConnKind.raw
        ∈ serve (WorkerEnv.mk true true true none none) 6 :=
  ⟨⟨rfl, rfl, rfl⟩,
    (serve_tls_conn_usage (WorkerEnv.mk true true true none none)
      6 rfl rfl rfl).1,
    (serve_tls_conn_usage (WorkerEnv.mk true true true none none)
      6 rfl rfl rfl).2.1⟩

/-- C5: a panic of the handler is recovered inside the worker boundary
and recorded to the diagnostic sink, never escaping the wrapped body;
the sink is ErrorLog when set and the discard logger otherwise. The
hypothesis hrun restricts to the runs where the handler is actually
invoked (no TLS, or a successful handshake). -/
theorem serve_panic_isolated (env : WorkerEnv) (conn : Conn) (v : Nat)
    (hset : env.handlerSet = true) (hout : env.handlerOutcome = some v)
    (hrun : env.tlsSet = false ∨ env.handshakeErr = none) :
    (innerBody env conn (serveSink env)).2 = none ∧
    Action.logRecovered (serveSink env) v ∈ serve env conn ∧
    (env.errorLogSet = false → serveSink env = LogSink.discardLog) := by
  refine ⟨?_, ?_, ?_⟩
  · rcases hrun with h | h
    · simp [innerBody, h, hout]
    · cases ht : env.tlsSet <;> simp [innerBody, h, ht, hout]
  · rcases hrun with h | h
    · simp [serve, innerBody, hset, h, hout]
    · cases ht : env.tlsSet <;> simp [serve, innerBody, hset, h, ht, hout]
  · intro h
    simp [serveSink, h]

/-- C5 witness: concrete worker without TLS, no ErrorLog, whose handler
panics with value 4. -/
theorem serve_panic_isolated_witness :
    ((WorkerEnv.mk true false false none (some 4)).handlerSet = true ∧
     (WorkerEnv.mk true false false none (some 4)).handlerOutcome = some 4 ∧
     (WorkerEnv.mk true false false none (some 4)).tlsSet = false) ∧
    (innerBody (WorkerEnv.mk true false false none (some 4)) 3
        (serveSink (WorkerEnv.mk true false false none (some 4)))).2 = none ∧
    Action.logRecovered (serveSink (WorkerEnv.mk true false false none (some 4))) 4
        ∈ serve (WorkerEnv.mk true false false none (some 4)) 3 :=
  ⟨⟨rfl, rfl, rfl⟩,
    (serve_panic_isolated (WorkerEnv.mk true false false none (some 4))
      3 4 rfl rfl (Or.inl rfl)).1,
    (serve_panic_isolated (WorkerEnv.mk true false false none (some 4))
      3 4 rfl rfl (Or.inl rfl)).2.1⟩

/-- C2: on every exit path of a worker — handler returning normally,
handler panicking, TLS handshake failing, Handler absent — the trace
starts with the registration and ends with exactly one close of the raw
connection followed by exactly one removal of the registry entry, with
neither effect occurring earlier. -/
theorem serve_cleanup_once (env : WorkerEnv) (conn : Conn) :
    ∃ pre, serve env conn
        = Action.register conn
            :: (pre ++ [Action.closeConn conn ConnKind.raw,
                        Action.unregister conn]) ∧
      ∀ a ∈ pre, (∀ k, a ≠ Action.closeConn conn k) ∧
        ∀ d, a ≠ Action.unregister d := by
  refine ⟨if env.handlerSet then (innerBody env conn (serveSink env)).1
    else [], rfl, ?_⟩
  intro a ha
  cases hs : env.handlerSet with
  | false => simp [hs] at ha
  | true =>
    rw [if_pos hs] at ha
    cases ht : env.tlsSet <;> cases he : env.handshakeErr <;>
      cases ho : env.handlerOutcome <;>
      simp [innerBody, ht, he, ho] at ha
    all_goals rcases ha with rfl | rfl | rfl <;> simp

/-- C3: Close performs, in order, the listener close, one non-blocking
send to the shutdown slot, and per registry entry a non-blocking send to
its cancellation slot followed by a close of its raw socket; it returns
exactly the listener-close error, and neither sleeps nor removes any
registry entry, so it does not wait for any worker. -/
theorem Close_spec (closeErr : Option Err) (st : ServerState) (lid : Nat)
    (hl : st.l = some lid) :
    Close closeErr st = Outcome.ret (closeErr,
      Action.closeListener :: Action.sendCloseCh ::
        st.conns.flatMap (fun c => [Action.sendConnSignal c.conn,
          Action.closeConn c.conn ConnKind.raw]),
      { st with closeCh := signalSend st.closeCh,
                conns := st.conns.map (fun c => { c with closeCh := true }) }) ∧
    (st.conns.map (fun c => { c with closeCh := true })).map ConnCtx.conn
      = st.conns.map ConnCtx.conn ∧
    (∀ n, Action.sleepMs n ∉ Action.closeListener :: Action.sendCloseCh ::
        st.conns.flatMap (fun c => [Action.sendConnSignal c.conn,
          Action.closeConn c.conn ConnKind.raw])) ∧
    (∀ d, Action.unregister d ∉ Action.closeListener :: Action.sendCloseCh ::
        st.conns.flatMap (fun c => [Action.sendConnSignal c.conn,
          Action.closeConn c.conn ConnKind.raw])) := by
  refine ⟨by simp [Close, hl], by simp, ?_, ?_⟩
  · intro n
    simp [List.mem_flatMap]
  · intro d
    simp [List.mem_flatMap]

/-- C3 witness: Close on a concrete server with one registered
connection and a failing listener close. -/
theorem Close_spec_witness :
    (ServerState.mk (some 0) [ConnCtx.mk 7 false] false).l = some 0 ∧
    Close (some 2) (ServerState.mk (some 0) [ConnCtx.mk 7 false] false)
      = Outcome.ret (some 2,
        [Action.closeListener, Action.sendCloseCh, Action.sendConnSignal 7,
         Action.closeConn 7 ConnKind.raw],
        ServerState.mk (some 0) [ConnCtx.mk 7 true] true) := by
  refine ⟨rfl, ?_⟩
  have h := (Close_spec (some 2)
    (ServerState.mk (some 0) [ConnCtx.mk 7 false] false) 0 rfl).1
  simpa using h

/-- Helper for C4: a run of successful accepts only forwards the result
error of the remaining schedule unchanged. -/
theorem serveLoop_accepted_skip (evs tail : List AcceptEvent)
    (h : ∀ ev ∈ evs, isAccepted ev = true)
    (res : Option Err) (acts : List Action)
    (ht : serveLoop tail = some (res, acts)) :
    ∃ acts2, serveLoop (evs ++ tail) = some (res, acts2) := by
  induction evs with
  | nil => exact ⟨acts, ht⟩
  | cons ev evs ih =>
    have hev := h ev (List.mem_cons_self ev evs)
    have hrest : ∀ e ∈ evs, isAccepted e = true :=
      fun e he => h e (List.mem_cons_of_mem ev he)
    obtain ⟨acts2, h2⟩ := ih hrest
    cases ev with
    | accepted c =>
      exact ⟨Action.spawnWorker c :: acts2, by simp [serveLoop, h2]⟩
    | failed e temp sig => simp [isAccepted] at hev

/-- C4: when Close or Shutdown has filled the shutdown slot before the
accept loop observes a failure, Serve returns nil rather than the accept
error, whatever the error is and whether or not it is temporary; the
preceding iterations may have accepted any number of connections. -/
theorem Serve_nil_after_close (evs : List AcceptEvent)
    (h : ∀ ev ∈ evs, isAccepted ev = true) (e : Err) (temp : Bool)
    (rest : List AcceptEvent) :
    ∃ acts, Serve (evs ++ AcceptEvent.failed e temp true :: rest)
      = Outcome.ret (none, acts) := by
  have ht : serveLoop (AcceptEvent.failed e temp true :: rest)
      = some (none, [Action.closeListener]) := by
    simp [serveLoop]
  obtain ⟨acts2, h2⟩ := serveLoop_accepted_skip evs
    (AcceptEvent.failed e temp true :: rest) h none [Action.closeListener] ht
  exact ⟨acts2, by simp [Serve, h2]⟩

/-- C4 witness: one accepted connection, then an accept failure with the
shutdown signal pending; Serve returns nil. -/
theorem Serve_nil_after_close_witness :
    (∀ ev ∈ [AcceptEvent.accepted 1], isAccepted ev = true) ∧
    ∃ acts, Serve [AcceptEvent.accepted 1, AcceptEvent.failed 5 false true]
      = Outcome.ret (none, acts) := by
  refine ⟨by decide, ?_⟩
  have h := Serve_nil_after_close [AcceptEvent.accepted 1]
    (by decide) 5 false []
  simpa using h

/-- Helper for C1: timer ticks observing a non-empty registry keep the
wait loop spinning, only adding sleeps in front of the result of the
remaining schedule. -/
theorem shutdownLoop_waiting_skip (closeErr : Option Err) (ctxErr : Err)
    (evs tail : List LoopEvent) (h : ∀ e ∈ evs, stillWaiting e = true) :
    shutdownLoop closeErr ctxErr (evs ++ tail)
      = (shutdownLoop closeErr ctxErr tail).map
          (fun r => (r.1, evs.map (fun _ => Action.sleepMs 5) ++ r.2)) := by
  induction evs with
  | nil =>
    cases ht : shutdownLoop closeErr ctxErr tail <;> simp [ht]
  | cons e evs ih =>
    have hev := h e (List.mem_cons_self e evs)
    have hrest : ∀ x ∈ evs, stillWaiting x = true :=
      fun x hx => h x (List.mem_cons_of_mem e hx)
    cases e with
    | ctxDone reg => simp [stillWaiting] at hev
    | timer reg =>
      have hne : reg.isEmpty = false := by
        simpa [stillWaiting] using hev
      rw [List.cons_append]
      simp only [shutdownLoop, hne, Bool.false_eq_true, if_false, ih hrest]
      cases ht : shutdownLoop closeErr ctxErr tail <;> simp [ht]

/-- C1: after any run of timer ticks that observe a non-empty registry,
Shutdown returns the listener-close error as soon as a tick observes the
registry empty; and when ctx fires instead, Shutdown returns the ctx
error after closing every connection still present in the registry
snapshot it observes. -/
theorem Shutdown_spec (closeErr : Option Err) (ctxErr : Err)
    (st : ServerState) (lid : Nat) (hl : st.l = some lid)
    (evs : List LoopEvent) (hw : ∀ e ∈ evs, stillWaiting e = true) :
    (∀ rest, ∃ acts,
      Shutdown closeErr ctxErr (evs ++ LoopEvent.timer [] :: rest) st
        = Outcome.ret (closeErr, acts)) ∧
    (∀ reg rest, ∃ acts,
      Shutdown closeErr ctxErr (evs ++ LoopEvent.ctxDone reg :: rest) st
        = Outcome.ret (some ctxErr, acts) ∧
      ∀ c ∈ reg, Action.closeConn c.conn ConnKind.raw ∈ acts) := by
  constructor
  · intro rest
    have hskip := shutdownLoop_waiting_skip closeErr ctxErr evs
      (LoopEvent.timer [] :: rest) hw
    have hterm : shutdownLoop closeErr ctxErr (LoopEvent.timer [] :: rest)
        = some (closeErr, [Action.sleepMs 5]) := by
      simp [shutdownLoop]
    rw [hterm] at hskip
    exact ⟨(Action.closeListener :: Action.sendCloseCh ::
        st.conns.map (fun c => Action.sendConnSignal c.conn)) ++
        (evs.map (fun _ => Action.sleepMs 5) ++ [Action.sleepMs 5]),
      by simp [Shutdown, hl, hskip]⟩
  · intro reg rest
    have hskip := shutdownLoop_waiting_skip closeErr ctxErr evs
      (LoopEvent.ctxDone reg :: rest) hw
    have hterm : shutdownLoop closeErr ctxErr (LoopEvent.ctxDone reg :: rest)
        = some (some ctxErr,
            reg.map (fun c => Action.closeConn c.conn ConnKind.raw)) := by
      simp [shutdownLoop]
    rw [hterm] at hskip
    refine ⟨(Action.closeListener :: Action.sendCloseCh ::
        st.conns.map (fun c => Action.sendConnSignal c.conn)) ++
        (evs.map (fun _ => Action.sleepMs 5) ++
          reg.map (fun c => Action.closeConn c.conn ConnKind.raw)),
      by simp [Shutdown, hl, hskip], ?_⟩
    intro c hc
    simp only [List.mem_append, List.mem_map]
    exact Or.inr (Or.inr ⟨c, hc, rfl⟩)

/-- C1 witness: one spinning tick, then the registry is observed empty;
Shutdown returns the saved listener-close error. -/
theorem Shutdown_spec_witness :
    ((ServerState.mk (some 0) [ConnCtx.mk 7 false] false).l = some 0 ∧
     (∀ e ∈ [LoopEvent.timer [ConnCtx.mk 7 false]],
        stillWaiting e = true)) ∧
    ∃ acts, Shutdown (some 3) 9
        [LoopEvent.timer [ConnCtx.mk 7 false], LoopEvent.timer []]
        (ServerState.mk (some 0) [ConnCtx.mk 7 false] false)
      = Outcome.ret (some 3, acts) := by
  refine ⟨⟨rfl, by decide⟩, ?_⟩
  have h := (Shutdown_spec (some 3) 9
    (ServerState.mk (some 0) [ConnCtx.mk 7 false] false) 0 rfl
    [LoopEvent.timer [ConnCtx.mk 7 false]] (by decide)).1 []
  simpa using h

end TcpServer
